import Mathlib

/-!
Shallow embedding of `generate_qiime_manifest.py`, a CLI tool that produces
QIIME2 manifest CSV files.  Files on disk are modelled as lists of their
lines (each line carries its trailing newline, exactly as Python's
`readlines`/line iteration yields them and as every `file.write(line)` call
emits them), and the filesystem as a partial map from path strings to such
line lists.  Python exceptions are modelled explicitly.

String primitives (`str.split`, `str.startswith`, `s[-1]`, `Path.name`,
`Path.suffix`, `Path.stem`) are implemented by structural recursion over the
character list of the string so that every definition evaluates inside the
kernel.
-/

/-- Python's `str.split(sep)` for a one-character separator, over the
character list: split at every occurrence of the separator, keeping empty
fields (so `"".split(sep) == [""]` and `"a::b".split(":") == ["a","","b"]`).
`acc` holds the characters of the current field, in reverse. -/
def splitCharAux (sep : Char) : List Char → List Char → List String
  | [], acc => [String.mk acc.reverse]
  | c :: rest, acc =>
    if c = sep then String.mk acc.reverse :: splitCharAux sep rest []
    else splitCharAux sep rest (c :: acc)

/-- Python's `str.split(sep)` for a one-character separator. -/
def pySplit (sep : Char) (s : String) : List String :=
  splitCharAux sep s.data []

/-- Python's `str.startswith(c)` for a one-character prefix. -/
def pyStartsWith (s : String) (c : Char) : Bool :=
  match s.data with
  | [] => false
  | d :: _ => d = c

/-- Index of the last occurrence of `c`, scanning left to right while
remembering the best hit — Python's `str.rfind` (with `None` for `-1`). -/
def lastIndexOfAux (c : Char) : List Char → Nat → Option Nat → Option Nat
  | [], _, best => best
  | d :: rest, i, best =>
    lastIndexOfAux c rest (i + 1) (if d = c then some i else best)

/-- Python exceptions this script can hit.  `inferenceError` models the
script's custom `InferenceError`; `indexError` models `IndexError`;
`fileNotFoundError` models `FileNotFoundError` from `open(..., "r")`. -/
inductive PyError where
  | indexError
  | fileNotFoundError
  | inferenceError (msg : String)
  deriving DecidableEq, Repr

/-- The `Direction` enum of the script: direction of sequencing reads. -/
inductive Direction where
  | Forward
  | Reverse
  | Unknown
  deriving DecidableEq, Repr

/-- The `.value` attribute of each `Direction` member, exactly as in the
source (`"forward"`, `"reverse"`, `"Unknown"` — note the asymmetric case). -/
def Direction.value : Direction → String
  | .Forward => "forward"
  | .Reverse => "reverse"
  | .Unknown => "Unknown"

/-- `new_format = lambda x: x.split(" ")[1].split(":")[0]` (post-Casava 1.8).
`[1]` raises `IndexError` iff the line holds no space; the final
`split(":")[0]` never fails since `split` always returns at least one
field. -/
def new_format (x : String) : Except PyError String :=
  match pySplit ' ' x with
  | _ :: second :: _ => .ok ((pySplit ':' second).headD "")
  | _ => .error .indexError

/-- `old_format = lambda x: x.split(":")[4][-1]` (pre-Casava 1.8).  `[4]`
raises `IndexError` when the line has fewer than five colon fields, and
`[-1]` raises `IndexError` when that field is the empty string; otherwise
`[-1]` is the one-character string holding the field's last character. -/
def old_format (x : String) : Except PyError String :=
  match (pySplit ':' x).get? 4 with
  | some f =>
    match f.data.getLast? with
    | some c => .ok (String.mk [c])
    | none => .error .indexError
  | none => .error .indexError

/-- The `try/except` ladder of `infer_direction` on the header line:
`new_format` is tried first; on its `IndexError` the first handler runs
`old_format`.  In Python an exception raised inside an `except` handler is
not caught by the remaining handlers of the same `try`, so an `IndexError`
from `old_format` escapes uncaught — the `except (IndexError, TypeError)`
clause holding `raise InferenceError(...)` is unreachable (the try body can
raise only `IndexError`, already taken by the first clause). -/
def extract_member (line : String) : Except PyError String :=
  match new_format line with
  | .ok tok => .ok tok
  | .error _ => old_format line

/-- Final mapping of `infer_direction`: `member_number` is compared against
the strings `"1"` and `"2"`; `none` models the initial integer sentinel `0`,
which equals neither, so it maps to `Unknown`. -/
def memberToDirection (m : Option String) : Direction :=
  if m = some "1" then .Forward
  else if m = some "2" then .Reverse
  else .Unknown

/-- `infer_direction(filepath, n=100)`, over the file's lines: scan the
first `n` lines (`islice`), stop at the first line starting with `"@"`,
extract the member token through the `try/except` ladder, and map it to a
`Direction`; when no header line is found the sentinel maps to `Unknown`. -/
def infer_direction (contents : List String) (n : Nat) : Except PyError Direction :=
  match (contents.take n).find? (fun l => pyStartsWith l '@') with
  | none => .ok (memberToDirection none)
  | some line =>
    match extract_member line with
    | .ok tok => .ok (memberToDirection (some tok))
    | .error e => .error e

/-- The filesystem: a partial map from path strings to file contents, a
content being the list of the file's lines. -/
def Fs : Type := String → Option (List String)

/-- The empty filesystem. -/
def emptyFs : Fs := fun _ => none

/-- `pathlib.Path(p).name`: the final path component.  (Trailing path
separators, `.` and `..` components are not modelled; no claim exercises
them.) -/
def pathlibName (p : String) : String :=
  (pySplit '/' p).getLastD ""

/-- `pathlib.Path(p).suffix`: with `i = name.rfind(".")`, the slice
`name[i:]` when `0 < i < len(name) - 1`, else the empty string. -/
def pathlibSuffix (p : String) : String :=
  let n := pathlibName p
  match lastIndexOfAux '.' n.data 0 none with
  | some i =>
    if 0 < i ∧ i < n.data.length - 1 then String.mk (n.data.drop i) else ""
  | none => ""

/-- `pathlib.Path(p).stem`: with `i = name.rfind(".")`, the slice `name[:i]`
when `0 < i < len(name) - 1`, else the whole name. -/
def pathlibStem (p : String) : String :=
  let n := pathlibName p
  match lastIndexOfAux '.' n.data 0 none with
  | some i =>
    if 0 < i ∧ i < n.data.length - 1 then String.mk (n.data.take i) else n
  | none => n

/-- `f"{file.absolute()}"`: an already-absolute path is kept, a relative one
is resolved against the current working directory (normalisation of `.` and
`..` is not modelled; no claim exercises it). -/
def absolutePath (cwd p : String) : String :=
  if pyStartsWith p '/' then p else cwd ++ "/" ++ p

/-- The `ManifestFile` class state: the constructor argument `_path`, the
derived `name` (`_path.name`), the `existsFlag` field (modelling the
`exists` attribute, `_path.exists()` at construction time), `_lines` (lines that should already be in the file) and
`_unwritten_lines` (lines not yet written). -/
structure ManifestFile where
  path : String
  name : String
  existsFlag : Bool
  lines : List String
  unwritten_lines : List String
  deriving DecidableEq, Repr

/-- `ManifestFile.HEADER`. -/
def ManifestFile.HEADER : String := "sample-id,absolute-filepath,direction\n"

/-- `ManifestFile.__init__(filepath)`: empty `_lines`, `_unwritten_lines`
seeded with the header, `existsFlag` snapshotted from the filesystem. -/
def ManifestFile.init (filepath : String) (fs : Fs) : ManifestFile :=
  { path := filepath
    name := pathlibName filepath
    existsFlag := (fs filepath).isSome
    lines := []
    unwritten_lines := [ManifestFile.HEADER] }

/-- `ManifestFile.from_file(filepath)`: reads all lines of the existing
file into `_lines` after a freshly synthesized header (the file's own first
line is not treated specially), empties `_unwritten_lines`, forces
`existsFlag = true`.  Opening a missing file raises `FileNotFoundError`. -/
def ManifestFile.from_file (filepath : String) (fs : Fs) : Except PyError ManifestFile :=
  match fs filepath with
  | none => .error .fileNotFoundError
  | some content =>
    .ok { path := filepath
          name := pathlibName filepath
          existsFlag := true
          lines := ManifestFile.HEADER :: content
          unwritten_lines := [] }

/-- The CSV row written by `add_file`: `f"{name},{file_path},{direction.value}\n"`. -/
def ManifestFile.row (name file_path : String) (direction : Direction) : String :=
  name ++ "," ++ file_path ++ "," ++ direction.value ++ "\n"

/-- `ManifestFile.add_file(name, file_path, direction)`: appends one
formatted CSV row to `_unwritten_lines`. -/
def ManifestFile.add_file (m : ManifestFile) (name file_path : String)
    (direction : Direction) : ManifestFile :=
  { m with unwritten_lines := m.unwritten_lines ++ [ManifestFile.row name file_path direction] }

/-- `ManifestFile.extend_manifest(files, infer)`: for each input path, add a
row with the path's stem as sample id and its absolute path; with `infer`
the direction comes from `infer_direction` (opening the file; a raised
exception propagates, leaving the entries added so far in place), otherwise
it is `Unknown`. -/
def ManifestFile.extend_manifest (m : ManifestFile) (files : List String)
    (infer : Bool) (fs : Fs) (cwd : String) : Option PyError × ManifestFile :=
  match files with
  | [] => (none, m)
  | f :: rest =>
    if infer then
      match fs f with
      | none => (some .fileNotFoundError, m)
      | some content =>
        match infer_direction content 100 with
        | .error e => (some e, m)
        | .ok d =>
          (m.add_file (pathlibStem f) (absolutePath cwd f) d).extend_manifest rest infer fs cwd
    else
      (m.add_file (pathlibStem f) (absolutePath cwd f) Direction.Unknown).extend_manifest
        rest infer fs cwd

/-- `ManifestFile.create()`: `open(self.name, "w")` — note `self.name`, the
basename, not `self._path` — truncates that file and writes every line of
`_unwritten_lines` in order; then the unwritten lines are moved to the end
of `_lines` and `_unwritten_lines` is cleared. -/
def ManifestFile.create (m : ManifestFile) (fs : Fs) : ManifestFile × Fs :=
  ({ m with lines := m.lines ++ m.unwritten_lines, unwritten_lines := [] },
   fun p => if p = m.name then some m.unwritten_lines else fs p)

/-- `ManifestFile.update()`: `open(self.name, "a")` — again `self.name` —
creates the file when missing and appends every line of `_unwritten_lines`
in order; then the unwritten lines are moved to the end of `_lines` and
`_unwritten_lines` is cleared. -/
def ManifestFile.update (m : ManifestFile) (fs : Fs) : ManifestFile × Fs :=
  ({ m with lines := m.lines ++ m.unwritten_lines, unwritten_lines := [] },
   fun p => if p = m.name then some ((fs m.name).getD [] ++ m.unwritten_lines) else fs p)

/-- Parsed command-line arguments (`argparse.Namespace`): positional file
paths, the mutually exclusive `-o` (output) and `-a` (append) targets,
`-i` (infer) and `-n` (no-overwrite).  `none` models an option that was not
given. -/
structure Args where
  files : List String
  output : Option String
  append : Option String
  infer : Bool
  no_overwrite : Bool
  deriving DecidableEq, Repr

/-- How a run of `main` ends: `exit c` models `return c` from `main`
(becoming the process exit code via `sys.exit`), `uncaught e` models a
Python exception propagating out of `main` uncaught. -/
inductive MainResult where
  | exit (code : Nat)
  | uncaught (e : PyError)
  deriving DecidableEq, Repr

/-- `pathlib.Path(__file__).name`, the script's basename used as the prefix
of every printed error message. -/
def script_basename : String := "generate_qiime_manifest.py"

/-- `main()` (named `mainFn` since Lean reserves `main`): validate suffixes (exit 1), then existence of every input
(exit 2); build the `ManifestFile` according to `-a` / `-o` / neither
(checking the append target's existence and the `-n` no-overwrite conflict,
both exit 1); extend it from the input files (an exception escapes `main`
uncaught); finally `update`, `create`, or print the unwritten lines to
stdout, and return 0.  The result carries the final filesystem and the list
of lines printed to stdout. -/
def mainFn (args : Args) (fs : Fs) (cwd : String) : MainResult × Fs × List String :=
  if !(args.files.all (fun f => pathlibSuffix f == ".fastq")) then
    (.exit 1, fs,
     [script_basename ++
       ": error: All files must be valid fastq files and their names must end with '.fastq'"])
  else if !(args.files.all (fun f => (fs f).isSome)) then
    (.exit 2, fs,
     [script_basename ++ ": error: [Errrno 2] No such file or directory '" ++
       ((args.files.find? (fun f => (fs f).isNone)).getD "") ++ "'"])
  else
    match args.append with
    | some a =>
      if (fs a).isNone then
        (.exit 1, fs, [script_basename ++ ": error: File " ++ a ++ " not found!"])
      else
        match ManifestFile.from_file a fs with
        | .error e => (.uncaught e, fs, [])
        | .ok m0 =>
          match m0.extend_manifest args.files args.infer fs cwd with
          | (some e, _) => (.uncaught e, fs, [])
          | (none, m1) => (.exit 0, (m1.update fs).2, [])
    | none =>
      match args.output with
      | some o =>
        if args.no_overwrite && (fs o).isSome then
          (.exit 1, fs, [script_basename ++ ": error: File " ++ o ++ " exists!"])
        else
          match (ManifestFile.init o fs).extend_manifest args.files args.infer fs cwd with
          | (some e, _) => (.uncaught e, fs, [])
          | (none, m1) => (.exit 0, (m1.create fs).2, [])
      | none =>
        match (ManifestFile.init "stdout" fs).extend_manifest args.files args.infer fs cwd with
        | (some e, _) => (.uncaught e, fs, [])
        | (none, m1) => (.exit 0, fs, m1.unwritten_lines)

/-- Claim C5: whenever the first `@`-header line among the first `n` scanned
lines yields a member token under the ordered extraction strategies
(post-Casava split, then the pre-Casava fallback), `infer_direction`
returns `Forward` for the token `"1"`, `Reverse` for `"2"`, and `Unknown`
for any other token, without raising; scanning stops at the first header
line (`List.find?`). -/
theorem infer_direction_maps_member_token (contents : List String) (n : Nat)
    (line tok : String)
    (hline : (contents.take n).find? (fun l => pyStartsWith l '@') = some line)
    (htok : extract_member line = .ok tok) :
    infer_direction contents n =
      .ok (if tok = "1" then Direction.Forward
           else if tok = "2" then Direction.Reverse
           else Direction.Unknown) := by
  simp [infer_direction, hline, htok, memberToDirection]

/-- Witness for C5: the post-Casava header `"@M0 1:N:0:AG\n"` is found,
yields token `"1"`, and the file is inferred `Forward`. -/
theorem infer_direction_maps_member_token_witness :
    infer_direction ["@M0 1:N:0:AG\n"] 100 = .ok Direction.Forward := by
  simpa using
    infer_direction_maps_member_token ["@M0 1:N:0:AG\n"] 100 "@M0 1:N:0:AG\n" "1" rfl rfl

/-- Claim C6: when none of the first `n` scanned lines starts with `@`,
`infer_direction` returns `Unknown` and raises no error (the member-number
variable keeps its sentinel, which maps to `Unknown`); `List.take n` also
captures that a file shorter than `n` lines is scanned only to its end. -/
theorem infer_direction_no_header_unknown (contents : List String) (n : Nat)
    (h : ∀ l ∈ contents.take n, pyStartsWith l '@' = false) :
    infer_direction contents n = .ok Direction.Unknown := by
  have hfind : (contents.take n).find? (fun l => pyStartsWith l '@') = none := by
    apply List.find?_eq_none.mpr
    intro x hx
    simp [h x hx]
  simp [infer_direction, hfind, memberToDirection]

/-- Witness for C6: a two-line file with no `@`-prefixed line is inferred
`Unknown`. -/
theorem infer_direction_no_header_unknown_witness :
    infer_direction ["no header\n", "also none\n"] 100 = .ok Direction.Unknown :=
  infer_direction_no_header_unknown ["no header\n", "also none\n"] 100 (by decide)

/-- Claim C1 (code bug): when the found header line defeats both extraction
strategies with an out-of-range index, the escaping exception is the
`IndexError` raised by `old_format` inside the first `except` handler —
never the `InferenceError` of the unreachable second handler. -/
theorem infer_direction_double_failure_IndexError (contents : List String) (n : Nat)
    (line : String)
    (hline : (contents.take n).find? (fun l => pyStartsWith l '@') = some line)
    (h1 : new_format line = .error PyError.indexError)
    (h2 : old_format line = .error PyError.indexError) :
    infer_direction contents n = .error PyError.indexError := by
  have hx : extract_member line = .error PyError.indexError := by
    unfold extract_member
    rw [h1]
    exact h2
  simp [infer_direction, hline, hx]

/-- Witness for C1: the header `"@abc\n"` has no space (post-Casava split
fails) and fewer than five colon fields (pre-Casava fallback fails), and the
run ends in an uncaught `IndexError`, not an `InferenceError`. -/
theorem infer_direction_double_failure_IndexError_witness :
    infer_direction ["@abc\n"] 100 = .error PyError.indexError :=
  infer_direction_double_failure_IndexError ["@abc\n"] 100 "@abc\n" rfl rfl rfl

/-- Claim C2 counterexample: after a first `create` of a new document at
`"out.csv"` the file on disk holds the header line; a second `create` with
empty pending writes zero lines but reopens the target with mode `"w"`,
truncating it to the (empty) pending list — the on-disk content is not
unchanged. -/
theorem create_second_flush_truncates :
    (((ManifestFile.init "out.csv" emptyFs).create emptyFs).1.unwritten_lines = []) ∧
    (((ManifestFile.init "out.csv" emptyFs).create emptyFs).2 "out.csv"
        = some [ManifestFile.HEADER]) ∧
    ((((ManifestFile.init "out.csv" emptyFs).create emptyFs).1.create
        ((ManifestFile.init "out.csv" emptyFs).create emptyFs).2).2 "out.csv" = some []) ∧
    some ([] : List String) ≠ some [ManifestFile.HEADER] := by
  refine ⟨rfl, rfl, rfl, by decide⟩

/-- Claim C2 amended: a second flush with empty pending writes zero lines
and leaves the document's persisted/pending buffers unchanged; for `update`
(Persist-Append, on an existing file) the on-disk state is also untouched,
while `create` (Persist-Create) truncates the file at the document's `name`
to exactly the empty pending list and leaves every other path untouched. -/
theorem flush_empty_pending (m : ManifestFile) (fs : Fs)
    (hp : m.unwritten_lines = []) :
    ((fs m.name).isSome → (m.update fs).1 = m ∧ (m.update fs).2 = fs) ∧
    ((m.create fs).1 = m ∧ (m.create fs).2 m.name = some [] ∧
      ∀ p, p ≠ m.name → (m.create fs).2 p = fs p) := by
  obtain ⟨pa, na, ea, la, ua⟩ := m
  simp only at hp
  subst hp
  refine ⟨fun hs => ⟨?_, ?_⟩, ?_, ?_, ?_⟩
  · simp [ManifestFile.update]
  · funext q
    obtain ⟨v, hv⟩ := Option.isSome_iff_exists.mp hs
    by_cases hq : q = na
    · subst hq
      simp [ManifestFile.update, hv]
    · simp [ManifestFile.update, hq]
  · simp [ManifestFile.create]
  · simp [ManifestFile.create]
  · intro q hq
    simp [ManifestFile.create, hq]

/-- Witness for the amended C2: on a freshly created document at `"a.csv"`
(empty pending), a second `update` leaves the filesystem unchanged and a
second `create` truncates `"a.csv"` to the empty list. -/
theorem flush_empty_pending_witness :
    ((((ManifestFile.init "a.csv" emptyFs).create emptyFs).1.update
        ((ManifestFile.init "a.csv" emptyFs).create emptyFs).2).2
      = ((ManifestFile.init "a.csv" emptyFs).create emptyFs).2) ∧
    ((((ManifestFile.init "a.csv" emptyFs).create emptyFs).1.create
        ((ManifestFile.init "a.csv" emptyFs).create emptyFs).2).2 "a.csv" = some []) := by
  have h := flush_empty_pending (((ManifestFile.init "a.csv" emptyFs).create emptyFs).1)
    (((ManifestFile.init "a.csv" emptyFs).create emptyFs).2) rfl
  exact ⟨(h.1 rfl).2, h.2.2.1⟩

/-- Claim C4 (code bug): `create` writes through `open(self.name, "w")` —
the basename, not the constructed path: for a document constructed at
`"subdir/out.csv"`, `create` leaves `"subdir/out.csv"` absent and writes the
pending lines, in order, to `"out.csv"`; the pending lines are moved onto
the end of the persisted buffer and the pending buffer is cleared. -/
theorem create_opens_basename_not_path :
    (((ManifestFile.init "subdir/out.csv" emptyFs).create emptyFs).2 "subdir/out.csv"
        = none) ∧
    (((ManifestFile.init "subdir/out.csv" emptyFs).create emptyFs).2 "out.csv"
        = some [ManifestFile.HEADER]) ∧
    (((ManifestFile.init "subdir/out.csv" emptyFs).create emptyFs).1.lines
        = [ManifestFile.HEADER]) ∧
    (((ManifestFile.init "subdir/out.csv" emptyFs).create emptyFs).1.unwritten_lines
        = []) :=
  ⟨rfl, rfl, rfl, rfl⟩

/-- Claim C10: the `existsFlag` field is a construction-time snapshot:
`add_file`, `create` and `update` never change it; in particular `create`
on a previously nonexistent path leaves the flag `false` although the file
(at the document's `name`) now exists on disk. -/
theorem existsFlag_snapshot (m : ManifestFile) (fs fs0 : Fs)
    (p nm fp : String) (d : Direction) :
    ((m.add_file nm fp d).existsFlag = m.existsFlag) ∧
    (((m.create fs).1).existsFlag = m.existsFlag) ∧
    (((m.update fs).1).existsFlag = m.existsFlag) ∧
    (fs0 p = none →
      (ManifestFile.init p fs0).existsFlag = false ∧
      (((ManifestFile.init p fs0).create fs0).1).existsFlag = false ∧
      ((((ManifestFile.init p fs0).create fs0).2) (pathlibName p)).isSome = true) := by
  refine ⟨rfl, rfl, rfl, fun h => ⟨?_, ?_, ?_⟩⟩
  · simp [ManifestFile.init, h]
  · simp [ManifestFile.init, ManifestFile.create, h]
  · simp [ManifestFile.init, ManifestFile.create]

/-- Witness for C10: creating a document at the nonexistent `"m.csv"` leaves
its `existsFlag` at `false` while the file appears on disk. -/
theorem existsFlag_snapshot_witness :
    ((ManifestFile.init "m.csv" emptyFs).existsFlag = false) ∧
    ((((ManifestFile.init "m.csv" emptyFs).create emptyFs).1).existsFlag = false) ∧
    ((((ManifestFile.init "m.csv" emptyFs).create emptyFs).2 (pathlibName "m.csv")).isSome
        = true) :=
  (existsFlag_snapshot (ManifestFile.init "x.csv" emptyFs) emptyFs emptyFs
    "m.csv" "s" "/a" Direction.Forward).2.2.2 rfl

/-- Number of occurrences of the header line among a list of lines. -/
def headerCount (ls : List String) : Nat :=
  ls.count ManifestFile.HEADER

/-- Total number of header occurrences across a document's persisted and
pending buffers. -/
def ManifestFile.headerTotal (m : ManifestFile) : Nat :=
  headerCount (m.lines ++ m.unwritten_lines)

/-- Every direction value contains a character (`w`, `v` or `U`) that the
header line does not, so a generated CSV row can never equal the header
line, whatever the sample id and file path contain. -/
theorem row_ne_HEADER (nm fp : String) (d : Direction) :
    ManifestFile.row nm fp d ≠ ManifestFile.HEADER := by
  intro h
  have hd : (ManifestFile.row nm fp d).data = ManifestFile.HEADER.data := by rw [h]
  have hmem : ∀ c : Char, c ∈ d.value.data → c ∈ ManifestFile.HEADER.data := by
    intro c hc
    rw [← hd]
    simp only [ManifestFile.row, String.data_append, List.mem_append]
    tauto
  cases d
  · exact absurd (hmem 'w' (by decide)) (by decide)
  · exact absurd (hmem 'v' (by decide)) (by decide)
  · exact absurd (hmem 'U' (by decide)) (by decide)

/-- One lifecycle mutation of a document: adding an entry or flushing
(create or update). -/
inductive DocStep : ManifestFile → ManifestFile → Prop where
  | add (m : ManifestFile) (nm fp : String) (d : Direction) :
      DocStep m (m.add_file nm fp d)
  | create (m : ManifestFile) (fs : Fs) : DocStep m (m.create fs).1
  | update (m : ManifestFile) (fs : Fs) : DocStep m (m.update fs).1

/-- Reachability of one document state from another through lifecycle
operations. -/
def DocReachable : ManifestFile → ManifestFile → Prop :=
  Relation.ReflTransGen DocStep

/-- Each lifecycle step preserves the total header count. -/
theorem DocStep_preserves_headerTotal {m m' : ManifestFile} (h : DocStep m m') :
    m'.headerTotal = m.headerTotal := by
  cases h with
  | add nm fp d =>
    have h0 : ManifestFile.HEADER ∉ [ManifestFile.row nm fp d] := by
      simp
      exact Ne.symm (row_ne_HEADER nm fp d)
    simp [ManifestFile.headerTotal, ManifestFile.add_file, headerCount,
      List.count_append, List.count_eq_zero.mpr h0]
  | create fs =>
    simp [ManifestFile.headerTotal, ManifestFile.create, headerCount, List.count_append]
  | update fs =>
    simp [ManifestFile.headerTotal, ManifestFile.update, headerCount, List.count_append]

/-- Reachability preserves the total header count. -/
theorem DocReachable_preserves_headerTotal {m m' : ManifestFile} (h : DocReachable m m') :
    m'.headerTotal = m.headerTotal := by
  induction h with
  | refl => rfl
  | tail _ hstep ih => rw [DocStep_preserves_headerTotal hstep, ih]

/-- Claim C3 counterexample: loading an existing manifest whose file itself
begins with the header line yields a document in which the header occurs
twice across the persisted and pending buffers. -/
theorem from_file_duplicates_header :
    (ManifestFile.from_file "m.csv"
        (fun p => if p = "m.csv" then some [ManifestFile.HEADER] else none)).map
      ManifestFile.headerTotal = Except.ok 2 := rfl

/-- Claim C3 amended: across every lifecycle (construct or load, then any
sequence of add-entry and flush operations) the header line occurs exactly
once across the persisted and pending buffers — as the first pending line
of a new document, or as the synthesized first persisted line of a loaded
one — provided the loaded file does not itself contain a header line;
`from_file` prepends its header unconditionally, so a loaded file already
holding one gets a duplicate (see the counterexample). -/
theorem header_occurs_once (p : String) (fs0 : Fs) (m m0 : ManifestFile)
    (content : List String) :
    (DocReachable (ManifestFile.init p fs0) m → m.headerTotal = 1) ∧
    (fs0 p = some content → headerCount content = 0 →
      ManifestFile.from_file p fs0 = .ok m0 → DocReachable m0 m →
      m.headerTotal = 1) := by
  constructor
  · intro h
    rw [DocReachable_preserves_headerTotal h]
    simp [ManifestFile.headerTotal, ManifestFile.init, headerCount]
  · intro hc hz hf h
    rw [DocReachable_preserves_headerTotal h]
    simp only [ManifestFile.from_file, hc, Except.ok.injEq] at hf
    subst hf
    simp only [headerCount] at hz
    simp [ManifestFile.headerTotal, headerCount, List.count_cons, hz]

/-- Witness for the amended C3: a new document at `"w.csv"` after one added
entry and a flush has exactly one header; a document loaded from a file
holding the single non-header line `"x\n"` has exactly one header. -/
theorem header_occurs_once_witness :
    ((((ManifestFile.init "w.csv" emptyFs).add_file "s" "/w/s.fastq"
        Direction.Forward).create emptyFs).1).headerTotal = 1 ∧
    (ManifestFile.mk "n.csv" "n.csv" true [ManifestFile.HEADER, "x\n"] []).headerTotal
      = 1 := by
  constructor
  · exact (header_occurs_once "w.csv" emptyFs
      ((((ManifestFile.init "w.csv" emptyFs).add_file "s" "/w/s.fastq"
        Direction.Forward).create emptyFs).1)
      (ManifestFile.init "w.csv" emptyFs) []).1
      (Relation.ReflTransGen.tail
        (Relation.ReflTransGen.tail Relation.ReflTransGen.refl
          (DocStep.add (ManifestFile.init "w.csv" emptyFs) "s" "/w/s.fastq"
            Direction.Forward))
        (DocStep.create ((ManifestFile.init "w.csv" emptyFs).add_file "s" "/w/s.fastq"
            Direction.Forward) emptyFs))
  · exact (header_occurs_once "n.csv"
      (fun q => if q = "n.csv" then some ["x\n"] else none)
      (ManifestFile.mk "n.csv" "n.csv" true [ManifestFile.HEADER, "x\n"] [])
      (ManifestFile.mk "n.csv" "n.csv" true [ManifestFile.HEADER, "x\n"] [])
      ["x\n"]).2 rfl rfl rfl Relation.ReflTransGen.refl

/-- Claim C7: when `extend_manifest` succeeds (returns no exception), it
appends to the pending buffer exactly one CSV row per input file, in input
order, with the file's stem as sample id and its absolute path as filepath
— in particular the number of data rows added equals the number of input
files. -/
theorem extend_manifest_rows (files : List String) (m m' : ManifestFile)
    (infer : Bool) (fs : Fs) (cwd : String)
    (h : m.extend_manifest files infer fs cwd = (none, m')) :
    ∃ ds : List Direction, ds.length = files.length ∧
      m'.unwritten_lines = m.unwritten_lines ++
        (files.zip ds).map
          (fun fd => ManifestFile.row (pathlibStem fd.1) (absolutePath cwd fd.1) fd.2) ∧
      m'.unwritten_lines.length = m.unwritten_lines.length + files.length := by
  induction files generalizing m with
  | nil =>
    simp only [ManifestFile.extend_manifest, Prod.mk.injEq] at h
    refine ⟨[], rfl, ?_, ?_⟩ <;> simp [← h.2]
  | cons f rest ih =>
    cases hinf : infer with
    | false =>
      subst hinf
      simp only [ManifestFile.extend_manifest, Bool.false_eq_true, if_false] at h
      obtain ⟨ds, hlen, heq, hcnt⟩ := ih (m.add_file (pathlibStem f) (absolutePath cwd f)
        Direction.Unknown) h
      refine ⟨Direction.Unknown :: ds, by simp [hlen], ?_, ?_⟩
      · simp [heq, ManifestFile.add_file, List.append_assoc]
      · simp [hcnt, ManifestFile.add_file]
        omega
    | true =>
      subst hinf
      simp only [ManifestFile.extend_manifest, if_true] at h
      split at h
      · simp at h
      · split at h
        · simp at h
        · rename_i d hd
          obtain ⟨ds, hlen, heq, hcnt⟩ := ih _ h
          refine ⟨d :: ds, by simp [hlen], ?_, ?_⟩
          · simp [heq, ManifestFile.add_file, List.append_assoc]
          · simp [hcnt, ManifestFile.add_file]
            omega

/-- Witness for C7: extending a fresh document with the single input
`"a.fastq"` (no inference) appends exactly one row. -/
theorem extend_manifest_rows_witness :
    ∃ ds : List Direction, ds.length = ["a.fastq"].length ∧
      (((ManifestFile.init "o.csv" emptyFs).extend_manifest ["a.fastq"] false emptyFs
          "/w").2).unwritten_lines
        = (ManifestFile.init "o.csv" emptyFs).unwritten_lines ++
          ((["a.fastq"].zip ds).map
            (fun fd => ManifestFile.row (pathlibStem fd.1) (absolutePath "/w" fd.1) fd.2)) ∧
      (((ManifestFile.init "o.csv" emptyFs).extend_manifest ["a.fastq"] false emptyFs
          "/w").2).unwritten_lines.length
        = (ManifestFile.init "o.csv" emptyFs).unwritten_lines.length +
            ["a.fastq"].length :=
  extend_manifest_rows ["a.fastq"] (ManifestFile.init "o.csv" emptyFs)
    (((ManifestFile.init "o.csv" emptyFs).extend_manifest ["a.fastq"] false emptyFs
      "/w").2) false emptyFs "/w" rfl

/-- Claim C8: whenever a run of `main` ends with an uncaught exception — in
particular when direction inference fails for some input file inside
`extend_manifest` — the batch is aborted before any flush, and the whole
filesystem (including the create or append target) is returned exactly as
it was. -/
theorem mainFn_uncaught_leaves_fs (args : Args) (fs : Fs) (cwd : String) (e : PyError)
    (h : (mainFn args fs cwd).1 = MainResult.uncaught e) :
    (mainFn args fs cwd).2.1 = fs := by
  rcases hm : mainFn args fs cwd with ⟨r, fs2, out⟩
  rw [hm] at h
  simp only at h ⊢
  subst h
  unfold mainFn at hm
  repeat' split at hm
  all_goals simp_all

/-- Witness for C8: with `-o out.csv -i` and an input whose header defeats
both extraction strategies, the run ends in an uncaught `IndexError` and
the filesystem is unchanged (no partial manifest at `"out.csv"`). -/
theorem mainFn_uncaught_leaves_fs_witness :
    ((mainFn (Args.mk ["r1.fastq"] (some "out.csv") none true false)
        (fun p => if p = "r1.fastq" then some ["@abc\n"] else none) "/w").1
      = MainResult.uncaught PyError.indexError) ∧
    ((mainFn (Args.mk ["r1.fastq"] (some "out.csv") none true false)
        (fun p => if p = "r1.fastq" then some ["@abc\n"] else none) "/w").2.1
      = (fun p => if p = "r1.fastq" then some ["@abc\n"] else none)) :=
  ⟨rfl,
   mainFn_uncaught_leaves_fs (Args.mk ["r1.fastq"] (some "out.csv") none true false)
     (fun p => if p = "r1.fastq" then some ["@abc\n"] else none) "/w"
     PyError.indexError rfl⟩

/-- Claim C9: `main` validates before any processing, leaving the
filesystem untouched and printing one descriptive message: a non-`.fastq`
suffix exits with code 1; otherwise a nonexistent input file exits with
code 2; with `-a` a nonexistent append target exits with code 1; with `-o`
and `-n` an already existing output file exits with code 1. -/
theorem mainFn_validation :
    (∀ (args : Args) (fs : Fs) (cwd : String),
        args.files.all (fun f => pathlibSuffix f == ".fastq") = false →
        mainFn args fs cwd = (.exit 1, fs,
          [script_basename ++
            ": error: All files must be valid fastq files and their names must end with '.fastq'"])) ∧
    (∀ (args : Args) (fs : Fs) (cwd : String),
        args.files.all (fun f => pathlibSuffix f == ".fastq") = true →
        args.files.all (fun f => (fs f).isSome) = false →
        mainFn args fs cwd = (.exit 2, fs,
          [script_basename ++ ": error: [Errrno 2] No such file or directory '" ++
            ((args.files.find? (fun f => (fs f).isNone)).getD "") ++ "'"])) ∧
    (∀ (args : Args) (fs : Fs) (cwd : String) (a : String),
        args.files.all (fun f => pathlibSuffix f == ".fastq") = true →
        args.files.all (fun f => (fs f).isSome) = true →
        args.append = some a → fs a = none →
        mainFn args fs cwd = (.exit 1, fs,
          [script_basename ++ ": error: File " ++ a ++ " not found!"])) ∧
    (∀ (args : Args) (fs : Fs) (cwd : String) (o : String),
        args.files.all (fun f => pathlibSuffix f == ".fastq") = true →
        args.files.all (fun f => (fs f).isSome) = true →
        args.append = none → args.output = some o →
        args.no_overwrite = true → (fs o).isSome = true →
        mainFn args fs cwd = (.exit 1, fs,
          [script_basename ++ ": error: File " ++ o ++ " exists!"])) := by
  refine ⟨?_, ?_, ?_, ?_⟩
  · intro args fs cwd h1
    simp [mainFn, h1]
  · intro args fs cwd h1 h2
    simp [mainFn, h1, h2]
  · intro args fs cwd a h1 h2 ha hfa
    simp [mainFn, h1, h2, ha, hfa]
  · intro args fs cwd o h1 h2 ha ho hn hex
    simp [mainFn, h1, h2, ha, ho, hn, hex]

/-- Witness for C9: each of the four validation failures at a concrete
input — bad suffix, missing input, missing append target, and existing
output under no-overwrite — exits with the stated code and leaves the
filesystem unchanged. -/
theorem mainFn_validation_witness :
    (mainFn (Args.mk ["a.txt"] (some "o.csv") none false false) emptyFs "/w"
      = (.exit 1, emptyFs,
        [script_basename ++
          ": error: All files must be valid fastq files and their names must end with '.fastq'"])) ∧
    (mainFn (Args.mk ["a.fastq"] (some "o.csv") none false false) emptyFs "/w"
      = (.exit 2, emptyFs,
        [script_basename ++ ": error: [Errrno 2] No such file or directory '" ++
          (((["a.fastq"] : List String).find?
            (fun f => (emptyFs f).isNone)).getD "") ++ "'"])) ∧
    (mainFn (Args.mk ["a.fastq"] none (some "man.csv") false false)
        (fun p => if p = "a.fastq" then some ["x\n"] else none) "/w"
      = (.exit 1, (fun p => if p = "a.fastq" then some ["x\n"] else none),
        [script_basename ++ ": error: File " ++ "man.csv" ++ " not found!"])) ∧
    (mainFn (Args.mk ["a.fastq"] (some "o.csv") none false true)
        (fun p => if p = "a.fastq" ∨ p = "o.csv" then some ["x\n"] else none) "/w"
      = (.exit 1, (fun p => if p = "a.fastq" ∨ p = "o.csv" then some ["x\n"] else none),
        [script_basename ++ ": error: File " ++ "o.csv" ++ " exists!"])) :=
  ⟨mainFn_validation.1 (Args.mk ["a.txt"] (some "o.csv") none false false) emptyFs
      "/w" rfl,
   mainFn_validation.2.1 (Args.mk ["a.fastq"] (some "o.csv") none false false) emptyFs
      "/w" rfl rfl,
   mainFn_validation.2.2.1 (Args.mk ["a.fastq"] none (some "man.csv") false false)
      (fun p => if p = "a.fastq" then some ["x\n"] else none) "/w" "man.csv"
      rfl rfl rfl rfl,
   mainFn_validation.2.2.2 (Args.mk ["a.fastq"] (some "o.csv") none false true)
      (fun p => if p = "a.fastq" ∨ p = "o.csv" then some ["x\n"] else none) "/w"
      "o.csv" rfl rfl rfl rfl rfl rfl⟩

example : infer_direction ["@M0:8:000:1:1101:15 1:N:0:AGGC\n"] 100 = .ok .Forward := rfl
example : infer_direction ["@M0:8:000:1:1101:15 2:N:0:AGGC\n"] 100 = .ok .Reverse := rfl
example : infer_direction ["@HWUSI-EAS100R:6:73:941:1973#0/2\n"] 100 = .ok .Unknown := rfl
example : infer_direction ["@HWUSI-EAS100R:6:73:941:1973#0/2"] 100 = .ok .Reverse := rfl
example : infer_direction ["@abc\n"] 100 = .error .indexError := rfl
example : infer_direction ["no header\n", "also none\n"] 100 = .ok .Unknown := rfl
